import Mathlib

/-!
Shallow embedding of the video-processor API gateway (a NestJS/TypeScript
service): the remote-verification authentication guard, the auth passthrough
controller, the video proxy controller and the Prometheus metrics service,
together with theorems checking the specification's claims against them.
-/

/-- JSON-like runtime values, modelling the JavaScript values that flow
through the gateway (request bodies, backend response bodies, verified
identities). An absent object property is modelled as `Option.none` at the
use site (JavaScript undefined). -/
inductive JsonVal where
  | str (s : String)
  | num (n : Int)
  | bool (b : Bool)
  | null
  | arr (elems : List JsonVal)
  | obj (fields : List (String × JsonVal))

/-- Property lookup on an object field list: first binding of the key wins. -/
def JsonVal.lookupFields : List (String × JsonVal) → String → Option JsonVal
  | [], _ => none
  | (k, v) :: rest, key => if k = key then some v else JsonVal.lookupFields rest key

/-- JavaScript property access `x.key`: defined on objects, undefined (none)
on every other value. -/
def JsonVal.lookup : JsonVal → String → Option JsonVal
  | JsonVal.obj fields, key => JsonVal.lookupFields fields key
  | _, _ => none

/-- JavaScript truthiness of a value: empty string, zero, false and null are
falsy; arrays and objects are always truthy. -/
def JsonVal.truthy : JsonVal → Bool
  | JsonVal.str s => s != ""
  | JsonVal.num n => n != 0
  | JsonVal.bool b => b
  | JsonVal.null => false
  | JsonVal.arr _ => true
  | JsonVal.obj _ => true

/-- JavaScript truthiness where the value may be undefined (none). -/
def truthyOpt : Option JsonVal → Bool
  | none => false
  | some v => v.truthy

mutual

/-- JavaScript `String(x)` on a defined value: strings unchanged, numbers and
booleans printed, null as "null", plain objects as "[object Object]", arrays
joined by commas. -/
def JsonVal.toJsString : JsonVal → String
  | JsonVal.str s => s
  | JsonVal.num n => toString n
  | JsonVal.bool b => cond b "true" "false"
  | JsonVal.null => "null"
  | JsonVal.obj _ => "[object Object]"
  | JsonVal.arr elems => JsonVal.joinArr elems

/-- Array join with separator ",", as in JavaScript Array.prototype.join:
null elements become the empty string. -/
def JsonVal.joinArr : List JsonVal → String
  | [] => ""
  | [JsonVal.null] => ""
  | [v] => JsonVal.toJsString v
  | JsonVal.null :: rest => "," ++ JsonVal.joinArr rest
  | v :: rest => JsonVal.toJsString v ++ "," ++ JsonVal.joinArr rest

end

/-- JavaScript `String(x)` where `x` may be undefined (none). -/
def jsStringOpt : Option JsonVal → String
  | none => "undefined"
  | some v => v.toJsString

/-- Base URL of the auth service, `process.env.AUTH_SERVICE_URL || 'http://localhost:3002'`:
the environment variable is none when unset, and the JS `||` also falls back
to the default on an empty string. -/
def authServiceUrl : Option String → String
  | none => "http://localhost:3002"
  | some s => if s = "" then "http://localhost:3002" else s

/-- Accumulator pass for the JavaScript single-space split: builds the current
token in reverse and closes it at each space. -/
def splitSpaceAux : List Char → List Char → List String
  | [], acc => [String.mk acc.reverse]
  | c :: rest, acc =>
    if c = ' ' then String.mk acc.reverse :: splitSpaceAux rest []
    else splitSpaceAux rest (c :: acc)

/-- JavaScript `s.split(' ')`: split at every single space, keeping empty
pieces, so the empty string yields one empty piece. -/
def jsSplitSpace (s : String) : List String := splitSpaceAux s.data []

/-- AuthGuard.extractTokenFromHeader: splits the Authorization header on a
single space, destructures the result into `[type, token]`, and yields the
token only when the scheme is exactly "Bearer". A missing header yields the
empty list (the `?? []` fallback), hence no scheme and no token. -/
def extractTokenFromHeader (authorization : Option String) : Option String :=
  let parts : List String :=
    match authorization with
    | some a => jsSplitSpace a
    | none => []
  if parts.head? = some "Bearer" then parts[1]? else none

/-- Authentication errors raised by the guard; both are NestJS
UnauthorizedException values, which carry HTTP status 401. -/
inductive AuthError where
  | tokenMissing
  | tokenInvalid
  deriving DecidableEq

/-- Message carried by each guard error, as in the source. -/
def AuthError.message : AuthError → String
  | AuthError.tokenMissing => "Token not found"
  | AuthError.tokenInvalid => "Invalid token"

/-- HTTP status of an UnauthorizedException. -/
def AuthError.status : AuthError → Nat
  | _ => 401

/-- Ways the guard's verification call can fail: the axios observable errors
on a network failure, on a non-2xx response status, or on a timeout. -/
inductive BackendFailure where
  | networkError (msg : String)
  | httpStatus (status : Nat) (body : JsonVal)
  | timeout

/-- Outcome of the auth service's GET /auth/verify for a given bearer token:
axios resolves with the response body only for a 2xx status and errors
otherwise. -/
inductive AuthResult where
  | ok (body : JsonVal)
  | failed (e : BackendFailure)

/-- An outbound verification request issued by the guard. -/
structure VerifyCall where
  url : String
  authorizationHeader : String
  deriving DecidableEq

/-- AuthGuard.canActivate: extracts the bearer token, rejecting with
"Token not found" when it is absent or empty (the JS falsy check
`if (!token)`), then issues one GET to `<AUTH_SERVICE_URL>/auth/verify` with
header `Authorization: Bearer <token>`. The first component lists the
outbound verification calls made; the second is `Except.ok body` when the
guard stores the response body as `request.user` and returns true, and the
raised UnauthorizedException otherwise. -/
def canActivate (env : Option String) (backend : String → AuthResult)
    (authorization : Option String) : List VerifyCall × Except AuthError JsonVal :=
  match extractTokenFromHeader authorization with
  | none => ([], Except.error AuthError.tokenMissing)
  | some token =>
    if token = "" then ([], Except.error AuthError.tokenMissing)
    else
      let call : VerifyCall :=
        { url := authServiceUrl env ++ "/auth/verify"
          authorizationHeader := "Bearer " ++ token }
      match backend token with
      | AuthResult.ok body => ([call], Except.ok body)
      | AuthResult.failed _ => ([call], Except.error AuthError.tokenInvalid)

/-- Failure of an outbound axios call made by a proxy handler: either the
backend answered with a non-2xx status (the error keeps the backend's
status and body) or no response was obtained at all. -/
inductive AxiosFailure where
  | httpError (status : Nat) (body : JsonVal)
  | networkError (msg : String)

/-- An outbound JSON POST made by the auth passthrough controller. -/
structure AuthCall where
  url : String
  body : JsonVal

/-- Shared shape of AuthController.register, login and refresh: one POST of
the inbound body, unchanged, to `<AUTH_SERVICE_URL><path>`; the handler
returns `response.data` on success and rethrows the axios rejection
unchanged (there is no catch in the controller). The first component lists
the outbound calls made. -/
def authPost (env : Option String) (path : String)
    (backend : AuthCall → Except AxiosFailure (Nat × JsonVal)) (body : JsonVal) :
    List AuthCall × Except AxiosFailure JsonVal :=
  let call : AuthCall := { url := authServiceUrl env ++ path, body := body }
  match backend call with
  | Except.ok resp => ([call], Except.ok resp.2)
  | Except.error e => ([call], Except.error e)

/-- AuthController.register: forward the registration body to /auth/register. -/
def register (env : Option String)
    (backend : AuthCall → Except AxiosFailure (Nat × JsonVal)) (dto : JsonVal) :
    List AuthCall × Except AxiosFailure JsonVal :=
  authPost env "/auth/register" backend dto

/-- AuthController.login: forward the login body to /auth/login. -/
def login (env : Option String)
    (backend : AuthCall → Except AxiosFailure (Nat × JsonVal)) (dto : JsonVal) :
    List AuthCall × Except AxiosFailure JsonVal :=
  authPost env "/auth/login" backend dto

/-- AuthController.refresh: forward the refresh body to /auth/refresh. -/
def refresh (env : Option String)
    (backend : AuthCall → Except AxiosFailure (Nat × JsonVal)) (dto : JsonVal) :
    List AuthCall × Except AxiosFailure JsonVal :=
  authPost env "/auth/refresh" backend dto

/-- Modelled from the spec: the gateway layer that turns an auth passthrough
handler outcome into the HTTP response seen by the client (the bootstrap and
exception-filter wiring performing this mapping is not among the provided
sources). Per the spec, a successful POST handler responds with the NestJS
default status 201 and the returned body, a backend HTTP error is relayed
with the backend's status code and body preserved, and a failure with no
backend response surfaces as 500. -/
def clientResponseOfAuth : Except AxiosFailure JsonVal → Nat × JsonVal
  | Except.ok body => (201, body)
  | Except.error (AxiosFailure.httpError s b) => (s, b)
  | Except.error (AxiosFailure.networkError _) => (500, JsonVal.null)

/-- HTTP status NestJS assigns to a successful response of the login route:
the framework default for a POST handler is 201 Created, and the login
handler declares no HttpCode decorator overriding it. -/
def loginSuccessStatus : Nat := 201

/-- State of the two Prometheus counters touched by recordAuthOperation,
as maps from a label pair to the counter value. -/
structure MetricsState where
  authOperations : String × String → Nat
  businessOperations : String × String → Nat

/-- NodejsPrometheusService.recordAuthOperation: increment
auth_operations_total at labels (operation, status) and
business_operations_total at labels (operation, "auth"), each by one. -/
def recordAuthOperation (st : MetricsState) (operation status : String) : MetricsState :=
  { authOperations := fun p =>
      if p = (operation, status) then st.authOperations p + 1 else st.authOperations p
    businessOperations := fun p =>
      if p = (operation, "auth") then st.businessOperations p + 1 else st.businessOperations p }

/-- Modelled from the spec: the instrumentation step that records the outcome
of a login request (the call site of recordAuthOperation is not among the
provided sources; only the recording service itself is). Per the spec, a
successful login records ("login", "success") and a failed one records
("login", "failure"). -/
def recordLoginOutcome (st : MetricsState) (result : Except AxiosFailure JsonVal) :
    MetricsState :=
  match result with
  | Except.ok _ => recordAuthOperation st "login" "success"
  | Except.error _ => recordAuthOperation st "login" "failure"

/-- Base URL of the video service, `process.env.VIDEO_SERVICE_URL || 'http://localhost:3000'`. -/
def videoServiceUrl : Option String → String
  | none => "http://localhost:3000"
  | some s => if s = "" then "http://localhost:3000" else s

/-- An uploaded file as produced by multer: original filename and raw bytes. -/
structure MulterFile where
  originalname : String
  buffer : List Nat
  deriving DecidableEq

/-- Shape of the `files` argument reaching VideoController.uploadVideo: either
an array (whose entries may individually be missing, JS undefined) or a
non-array value (a single file object, or undefined when absent). -/
inductive FilesInput where
  | array (entries : List (Option MulterFile))
  | nonArray (entry : Option MulterFile)

/-- Every file entry of the input is an actual file object. -/
def FilesInput.allPresent : FilesInput → Bool
  | FilesInput.array entries => entries.all (fun e => e.isSome)
  | FilesInput.nonArray entry => entry.isSome

/-- Validation errors thrown by VideoController.uploadVideo; both are bare
JavaScript Error values, not NestJS HttpExceptions. -/
inductive UploadError where
  | noFiles
  | tooMany
  deriving DecidableEq

/-- Message carried by each upload validation error, as in the source. -/
def UploadError.message : UploadError → String
  | UploadError.noFiles => "No files provided"
  | UploadError.tooMany => "Maximum 3 files allowed"

/-- HTTP status the client receives for each upload validation error: the
handler throws a bare Error, which is not an HttpException, and the NestJS
base exception filter maps any such unrecognized exception to a generic
500 Internal Server Error response. -/
def UploadError.clientStatus : UploadError → Nat
  | _ => 500

/-- The outbound multipart POST built by VideoController.uploadVideo: target
URL, the multipart parts (field name, original filename, raw bytes) and the
X-User-Id header value. -/
structure UploadPost where
  url : String
  parts : List (String × String × List Nat)
  userId : String
  deriving DecidableEq

/-- Value of the X-User-Id header:
`String(req.user.user ? req.user.user.sub : req.user.sub)`, reading the
nested identity shape when the `user` property is truthy and the flat shape
otherwise. -/
def xUserIdHeader (user : JsonVal) : String :=
  if truthyOpt (user.lookup "user") then
    jsStringOpt ((user.lookup "user").bind (fun u => u.lookup "sub"))
  else
    jsStringOpt (user.lookup "sub")

/-- VideoController.uploadVideo up to the outbound call: wrap a non-array
value into a one-element array, reject when the array is empty (the
`!fileArray` disjunct in the source can never hold, since the wrapped value
is always an array and arrays are truthy) or has more than 3 entries, then
append to the form data each entry that is an actual file (the `if (file)`
truthiness check skips missing entries), preserving its original filename
and bytes under field name "videos". -/
def uploadVideo (env : Option String) (files : FilesInput) (user : JsonVal) :
    Except UploadError UploadPost :=
  let fileArray : List (Option MulterFile) :=
    match files with
    | FilesInput.array entries => entries
    | FilesInput.nonArray entry => [entry]
  if fileArray.length = 0 then Except.error UploadError.noFiles
  else if fileArray.length > 3 then Except.error UploadError.tooMany
  else Except.ok
    { url := videoServiceUrl env ++ "/api/v1/videos/upload"
      parts := fileArray.filterMap
        (fun e => e.map (fun f => ("videos", f.originalname, f.buffer)))
      userId := xUserIdHeader user }

/-- VideoController.uploadVideo including the outbound call and its response:
on validation failure no outbound call is made; otherwise exactly one
multipart POST is issued and the backend's response body is returned
verbatim. The first component lists the outbound calls made. -/
def uploadVideoRun (env : Option String) (files : FilesInput) (user : JsonVal)
    (backend : UploadPost → JsonVal) : List UploadPost × Except UploadError JsonVal :=
  match uploadVideo env files user with
  | Except.error e => ([], Except.error e)
  | Except.ok post => ([post], Except.ok (backend post))

/-- The outbound multipart POST that uploadVideo builds for an array of
actual files. -/
def uploadPostFor (env : Option String) (user : JsonVal) (fs : List MulterFile) :
    UploadPost :=
  { url := videoServiceUrl env ++ "/api/v1/videos/upload"
    parts := fs.map (fun f => ("videos", f.originalname, f.buffer))
    userId := xUserIdHeader user }

/-- The outbound GET issued by VideoController.downloadVideo: target URL,
X-User-Id header, and whether the axios request asked for the body as a
stream (`responseType: 'stream'`). -/
structure DownloadRequestCall where
  url : String
  xUserId : String
  responseTypeStream : Bool
  deriving DecidableEq

/-- What downloadVideo writes to the client connection: the headers set via
`res.set` and the body chunks relayed to it. -/
structure ClientDownloadResponse where
  headers : List (String × String)
  chunks : List (List Nat)
  deriving DecidableEq

/-- VideoController.downloadVideo: one GET to
`<VIDEO_SERVICE_URL>/api/v1/videos/download/<filename>` with the X-User-Id
header and `responseType: 'stream'`, then `res.set` of the Content-Type and
Content-Disposition headers, then `response.data.pipe(res)`. The backend
body is a stream of byte chunks, and pipe relays each chunk to the client as
it arrives, so the client receives exactly the backend's chunk sequence with
its chunk boundaries intact (no intermediate buffering or concatenation). -/
def downloadVideo (env : Option String) (filename : String) (user : JsonVal)
    (backend : DownloadRequestCall → List (List Nat)) :
    DownloadRequestCall × ClientDownloadResponse :=
  let call : DownloadRequestCall :=
    { url := videoServiceUrl env ++ "/api/v1/videos/download/" ++ filename
      xUserId := xUserIdHeader user
      responseTypeStream := true }
  (call,
    { headers := [("Content-Type", "application/zip"),
                  ("Content-Disposition", "attachment; filename=" ++ filename)]
      chunks := backend call })

/-- Sample verified identity in the flat shape, as in the repository tests. -/
def userFlat0 : JsonVal :=
  JsonVal.obj [("sub", JsonVal.str "user-id-123"), ("username", JsonVal.str "testuser"),
    ("email", JsonVal.str "test@example.com"), ("role", JsonVal.str "USER")]

/-- Sample auth backend that verifies every token with a null body. -/
def backendOkNull : String → AuthResult := fun _ => AuthResult.ok JsonVal.null

/-- Sample auth backend that verifies every token with the flat identity. -/
def backendOkVerify : String → AuthResult := fun _ => AuthResult.ok userFlat0

/-- Sample auth backend whose verification call fails with a network error. -/
def backendFailNetwork : String → AuthResult :=
  fun _ => AuthResult.failed (BackendFailure.networkError "Verification failed")

/-- Sample auth backend whose verification call fails with a 401 response. -/
def backendFail401 : String → AuthResult :=
  fun _ => AuthResult.failed (BackendFailure.httpStatus 401 JsonVal.null)

/-- Sample login request body. -/
def loginDto0 : JsonVal :=
  JsonVal.obj [("username", JsonVal.str "u"), ("password", JsonVal.str "p")]

/-- Sample successful login response body from the auth service. -/
def tokenBody0 : JsonVal :=
  JsonVal.obj [("access_token", JsonVal.str "t1"), ("refresh_token", JsonVal.str "t2"),
    ("user", userFlat0)]

/-- Sample backend error body. -/
def errBody0 : JsonVal :=
  JsonVal.obj [("message", JsonVal.str "Invalid credentials")]

/-- Sample auth-controller backend answering 200 with the token body. -/
def backendLogin200 : AuthCall → Except AxiosFailure (Nat × JsonVal) :=
  fun _ => Except.ok (200, tokenBody0)

/-- Sample auth-controller backend answering 401 with the error body. -/
def backendLogin401 : AuthCall → Except AxiosFailure (Nat × JsonVal) :=
  fun _ => Except.error (AxiosFailure.httpError 401 errBody0)

/-- Metrics state with every counter at zero. -/
def zeroMetrics : MetricsState :=
  { authOperations := fun _ => 0, businessOperations := fun _ => 0 }

/-- Sample uploaded files. -/
def file1 : MulterFile := { originalname := "test1.mp4", buffer := [10, 11] }

/-- Second sample uploaded file. -/
def file2 : MulterFile := { originalname := "test2.mp4", buffer := [20, 21, 22] }

/-- Sample video backend answering every upload with a null body. -/
def backendUpload0 : UploadPost → JsonVal := fun _ => JsonVal.null

/-- The outbound post uploadVideo builds for the single sample file. -/
def uploadPost1 : UploadPost :=
  { url := "http://localhost:3000/api/v1/videos/upload"
    parts := [("videos", "test1.mp4", [10, 11])]
    userId := "user-id-123" }

theorem filterMap_map_some_parts (g : MulterFile → String × String × List Nat) :
    ∀ fs : List MulterFile, (fs.map some).filterMap (fun e => e.map g) = fs.map g
  | [] => rfl
  | f :: rest => by
    simp only [List.map_cons, List.filterMap_cons, Option.map_some]
    exact congrArg (g f :: ·) (filterMap_map_some_parts g rest)

theorem length_filterMap_all_some (g : MulterFile → String × String × List Nat) :
    ∀ l : List (Option MulterFile), l.all (fun e => e.isSome) = true →
      (l.filterMap (fun e => e.map g)).length = l.length
  | [], _ => rfl
  | none :: _, h => by simp at h
  | some a :: rest, h => by
    simp only [List.all_cons, Bool.and_eq_true] at h
    simp only [List.filterMap_cons, Option.map_some, List.length_cons]
    exact congrArg (· + 1) (length_filterMap_all_some g rest h.2)

/-- C1: for every request whose Authorization header is missing, empty, uses
a scheme other than Bearer, or carries an empty token value, the guard
rejects with a 401 authentication error whose message is "Token not found"
and makes no call to the auth service, whatever the auth backend would
answer. -/
theorem C1_guard_rejects_without_bearer_token (env : Option String)
    (backend : String → AuthResult) (authz : Option String)
    (h : authz = none ∨ authz = some "" ∨
      (∃ a, authz = some a ∧ (jsSplitSpace a).head? ≠ some "Bearer") ∨
      (∃ a, authz = some a ∧ (jsSplitSpace a).head? = some "Bearer" ∧
        ((jsSplitSpace a)[1]? = none ∨ (jsSplitSpace a)[1]? = some ""))) :
    canActivate env backend authz = ([], Except.error AuthError.tokenMissing) ∧
    AuthError.tokenMissing.status = 401 ∧
    AuthError.tokenMissing.message = "Token not found" := by
  refine ⟨?_, rfl, rfl⟩
  rcases h with rfl | rfl | ⟨a, rfl, hne⟩ | ⟨a, rfl, hb, hz | hz⟩
  · rfl
  · rfl
  · simp [canActivate, extractTokenFromHeader, hne]
  · simp [canActivate, extractTokenFromHeader, hb, hz]
  · simp [canActivate, extractTokenFromHeader, hb, hz]

/-- C1 witness: the guard at a wrong-scheme Basic header and an always-ok
backend. -/
theorem C1_guard_rejects_without_bearer_token_witness :
    canActivate none backendOkNull (some "Basic dXNlcjpwYXNz") =
      ([], Except.error AuthError.tokenMissing) ∧
    AuthError.tokenMissing.status = 401 ∧
    AuthError.tokenMissing.message = "Token not found" :=
  C1_guard_rejects_without_bearer_token none backendOkNull (some "Basic dXNlcjpwYXNz")
    (Or.inr (Or.inr (Or.inl ⟨"Basic dXNlcjpwYXNz", rfl, by decide⟩)))

/-- C2: for every request carrying a well-formed bearer token, the guard
issues exactly one verification call, GET <AUTH_SERVICE_URL>/auth/verify
(the base URL defaulting to http://localhost:3002) with header
Authorization: Bearer <token>, and when that call succeeds (axios resolves
only on a 2xx status) it stores the response body as the verified identity
and allows the request to proceed. -/
theorem C2_guard_verifies_token_once (env : Option String)
    (backend : String → AuthResult) (authz : Option String) (token : String)
    (body : JsonVal) (ht : extractTokenFromHeader authz = some token)
    (hne : token ≠ "") (hb : backend token = AuthResult.ok body) :
    canActivate env backend authz =
      ([{ url := authServiceUrl env ++ "/auth/verify"
          authorizationHeader := "Bearer " ++ token }], Except.ok body) ∧
    authServiceUrl none = "http://localhost:3002" := by
  refine ⟨?_, rfl⟩
  simp [canActivate, ht, hne, hb]

/-- C2 witness: the guard at a concrete bearer token and a backend
answering with the flat identity. -/
theorem C2_guard_verifies_token_once_witness :
    canActivate none backendOkVerify (some "Bearer valid-token") =
      ([{ url := authServiceUrl none ++ "/auth/verify"
          authorizationHeader := "Bearer " ++ "valid-token" }], Except.ok userFlat0) ∧
    authServiceUrl none = "http://localhost:3002" :=
  C2_guard_verifies_token_once none backendOkVerify (some "Bearer valid-token")
    "valid-token" userFlat0 (by decide) (by decide) rfl

/-- C3: whenever the verification call fails, whichever failure occurred
(network error, non-2xx status, timeout), the guard rejects with a 401
error whose message is the fixed string "Invalid token"; the outcome is
identical across failures, so no detail of the backend error reaches the
client. -/
theorem C3_guard_failure_is_opaque (env : Option String) (authz : Option String)
    (token : String) (b1 b2 : String → AuthResult) (e1 e2 : BackendFailure)
    (ht : extractTokenFromHeader authz = some token) (hne : token ≠ "")
    (h1 : b1 token = AuthResult.failed e1) (h2 : b2 token = AuthResult.failed e2) :
    canActivate env b1 authz = canActivate env b2 authz ∧
    canActivate env b1 authz =
      ([{ url := authServiceUrl env ++ "/auth/verify"
          authorizationHeader := "Bearer " ++ token }],
        Except.error AuthError.tokenInvalid) ∧
    AuthError.tokenInvalid.status = 401 ∧
    AuthError.tokenInvalid.message = "Invalid token" := by
  have g1 : canActivate env b1 authz =
      ([{ url := authServiceUrl env ++ "/auth/verify"
          authorizationHeader := "Bearer " ++ token }],
        Except.error AuthError.tokenInvalid) := by
    simp [canActivate, ht, hne, h1]
  have g2 : canActivate env b2 authz =
      ([{ url := authServiceUrl env ++ "/auth/verify"
          authorizationHeader := "Bearer " ++ token }],
        Except.error AuthError.tokenInvalid) := by
    simp [canActivate, ht, hne, h2]
  exact ⟨g1.trans g2.symm, g1, rfl, rfl⟩

/-- C3 witness: a network failure and a 401 failure produce the same
rejection. -/
theorem C3_guard_failure_is_opaque_witness :
    canActivate none backendFailNetwork (some "Bearer invalid-token") =
      canActivate none backendFail401 (some "Bearer invalid-token") ∧
    canActivate none backendFailNetwork (some "Bearer invalid-token") =
      ([{ url := authServiceUrl none ++ "/auth/verify"
          authorizationHeader := "Bearer " ++ "invalid-token" }],
        Except.error AuthError.tokenInvalid) ∧
    AuthError.tokenInvalid.status = 401 ∧
    AuthError.tokenInvalid.message = "Invalid token" :=
  C3_guard_failure_is_opaque none (some "Bearer invalid-token") "invalid-token"
    backendFailNetwork backendFail401 (BackendFailure.networkError "Verification failed")
    (BackendFailure.httpStatus 401 JsonVal.null) (by decide) (by decide) rfl rfl

/-- C4: at the failing inputs (zero files, more than 3 files) the handler
does reject before any outbound call with the messages the claim names, but
each rejection is a bare Error rather than an HttpException, so the client
receives the NestJS fallback status 500, not a 4xx, although the route's own
ApiResponse decorator documents 400 for these cases. -/
theorem C4_upload_validation_throws_plain_error :
    uploadVideoRun none (FilesInput.array []) userFlat0 backendUpload0 =
      ([], Except.error UploadError.noFiles) ∧
    UploadError.noFiles.message = "No files provided" ∧
    uploadVideoRun none
        (FilesInput.array [some file1, some file2, some file1, some file2])
        userFlat0 backendUpload0 = ([], Except.error UploadError.tooMany) ∧
    UploadError.tooMany.message = "Maximum 3 files allowed" ∧
    UploadError.noFiles.clientStatus = 500 ∧
    UploadError.tooMany.clientStatus = 500 ∧
    ¬(400 ≤ UploadError.noFiles.clientStatus ∧ UploadError.noFiles.clientStatus < 500) :=
  ⟨rfl, rfl, rfl, rfl, rfl, rfl, by decide⟩

/-- C5: for 1 to 3 actual files the handler makes exactly one outbound
multipart POST to <VIDEO_SERVICE_URL>/api/v1/videos/upload (the base URL
defaulting to http://localhost:3000) containing every file with its original
filename, with X-User-Id read from the nested identity shape when the user
key holds an object and from the flat sub otherwise, and returns the backend
response body verbatim. -/
theorem C5_upload_forwards_files (env : Option String) (user : JsonVal)
    (backend : UploadPost → JsonVal) (fs : List MulterFile)
    (h1 : 1 ≤ fs.length) (h3 : fs.length ≤ 3) :
    uploadVideoRun env (FilesInput.array (fs.map some)) user backend =
      ([uploadPostFor env user fs], Except.ok (backend (uploadPostFor env user fs))) ∧
    (uploadPostFor env user fs).url = videoServiceUrl env ++ "/api/v1/videos/upload" ∧
    (uploadPostFor env user fs).parts =
      fs.map (fun f => ("videos", f.originalname, f.buffer)) ∧
    videoServiceUrl none = "http://localhost:3000" ∧
    (∀ ufields s, user.lookup "user" = some (JsonVal.obj ufields) →
      JsonVal.lookupFields ufields "sub" = some (JsonVal.str s) →
      (uploadPostFor env user fs).userId = s) ∧
    (∀ s, user.lookup "user" = none → user.lookup "sub" = some (JsonVal.str s) →
      (uploadPostFor env user fs).userId = s) := by
  have hz : ¬((fs.map some).length = 0) := by
    simp only [List.length_map]; omega
  have hgt : ¬((fs.map some).length > 3) := by
    simp only [List.length_map]; omega
  have hpost : uploadVideo env (FilesInput.array (fs.map some)) user =
      Except.ok (uploadPostFor env user fs) := by
    simp only [uploadVideo, uploadPostFor]
    rw [if_neg hz, if_neg hgt]
    simp [filterMap_map_some_parts]
  refine ⟨?_, rfl, rfl, rfl, ?_, ?_⟩
  · simp [uploadVideoRun, hpost]
  · intro ufields s hu hsub
    simp only [uploadPostFor, xUserIdHeader]
    rw [hu]
    simp [truthyOpt, JsonVal.truthy, JsonVal.lookup, hsub, jsStringOpt, JsonVal.toJsString]
  · intro s hu hsub
    simp only [uploadPostFor, xUserIdHeader]
    rw [hu, hsub]
    simp [truthyOpt, jsStringOpt, JsonVal.toJsString]

/-- C5 witness: two sample files and the flat identity; the X-User-Id header
comes out as the flat sub. -/
theorem C5_upload_forwards_files_witness :
    (uploadVideoRun none (FilesInput.array ([file1, file2].map some)) userFlat0
        backendUpload0 =
      ([uploadPostFor none userFlat0 [file1, file2]],
        Except.ok (backendUpload0 (uploadPostFor none userFlat0 [file1, file2])))) ∧
    (uploadPostFor none userFlat0 [file1, file2]).userId = "user-id-123" := by
  have h := C5_upload_forwards_files none userFlat0 backendUpload0 [file1, file2]
    (by decide) (by decide)
  exact ⟨h.1, h.2.2.2.2.2 "user-id-123" rfl rfl⟩

/-- C6 counterexample: with a missing files value (JS undefined), the wrapped
array [undefined] has length 1, validation passes, and the outbound call is
made with zero files in the multipart body, so the count is outside [1,3]. -/
theorem C6_upload_count_counterexample :
    (uploadVideoRun none (FilesInput.nonArray none) userFlat0 backendUpload0).1.length
      = 1 ∧
    (uploadVideo none (FilesInput.nonArray none) userFlat0).map UploadPost.parts =
      Except.ok [] :=
  ⟨rfl, rfl⟩

/-- C6 amended: provided every entry of the files value is an actual file
object, any outbound multipart call carries between 1 and 3 files; a missing
files value, or an array containing undefined entries, can instead reach the
outbound call with fewer files than were validated. -/
theorem C6_upload_count_invariant (env : Option String) (user : JsonVal)
    (files : FilesInput) (post : UploadPost) (hall : files.allPresent = true)
    (h : uploadVideo env files user = Except.ok post) :
    1 ≤ post.parts.length ∧ post.parts.length ≤ 3 := by
  cases files with
  | array entries =>
    simp only [FilesInput.allPresent] at hall
    simp only [uploadVideo] at h
    by_cases h0 : entries.length = 0
    · rw [if_pos h0] at h; exact absurd h (by simp)
    · rw [if_neg h0] at h
      by_cases hg : entries.length > 3
      · rw [if_pos hg] at h; exact absurd h (by simp)
      · rw [if_neg hg] at h
        have hp := Except.ok.inj h
        have hlen := length_filterMap_all_some
          (fun f => ("videos", f.originalname, f.buffer)) entries hall
        cases hp
        constructor
        · simpa [hlen] using Nat.one_le_iff_ne_zero.mpr h0
        · simpa [hlen] using Nat.not_lt.mp hg
  | nonArray entry =>
    simp only [FilesInput.allPresent] at hall
    cases entry with
    | none => simp at hall
    | some f =>
      simp only [uploadVideo] at h
      norm_num at h
      cases h
      constructor <;> simp

/-- C6 amended witness: one actual file. -/
theorem C6_upload_count_invariant_witness :
    1 ≤ uploadPost1.parts.length ∧ uploadPost1.parts.length ≤ 3 :=
  C6_upload_count_invariant none userFlat0 (FilesInput.array [some file1]) uploadPost1
    (by decide) rfl

/-- C7: every download request asks the backend for the body as a stream,
sets exactly the headers Content-Type: application/zip and
Content-Disposition: attachment; filename=<requested filename> with the
filename verbatim, and relays the backend stream to the client with its
chunk sequence intact (no intermediate buffering). -/
theorem C7_download_streams_with_headers (env : Option String) (filename : String)
    (user : JsonVal) (backend : DownloadRequestCall → List (List Nat)) :
    (downloadVideo env filename user backend).1.responseTypeStream = true ∧
    (downloadVideo env filename user backend).1.url =
      videoServiceUrl env ++ "/api/v1/videos/download/" ++ filename ∧
    (downloadVideo env filename user backend).2.headers =
      [("Content-Type", "application/zip"),
       ("Content-Disposition", "attachment; filename=" ++ filename)] ∧
    (downloadVideo env filename user backend).2.chunks =
      backend (downloadVideo env filename user backend).1 :=
  ⟨rfl, rfl, rfl, rfl⟩

/-- C8: when the backend call of an auth passthrough route (register, login,
refresh) fails with a non-2xx response, the handler rethrows the failure
unchanged (no catch, no wrapping), and the response relayed to the client
keeps the backend status code and body. -/
theorem C8_auth_errors_pass_through (env : Option String)
    (backend : AuthCall → Except AxiosFailure (Nat × JsonVal)) (body : JsonVal)
    (s : Nat) (b : JsonVal) (hs : ¬(200 ≤ s ∧ s < 300))
    (hb : ∀ c, backend c = Except.error (AxiosFailure.httpError s b)) :
    ((register env backend body).2 = Except.error (AxiosFailure.httpError s b) ∧
      clientResponseOfAuth (register env backend body).2 = (s, b)) ∧
    ((login env backend body).2 = Except.error (AxiosFailure.httpError s b) ∧
      clientResponseOfAuth (login env backend body).2 = (s, b)) ∧
    ((refresh env backend body).2 = Except.error (AxiosFailure.httpError s b) ∧
      clientResponseOfAuth (refresh env backend body).2 = (s, b)) := by
  refine ⟨⟨?_, ?_⟩, ⟨?_, ?_⟩, ⟨?_, ?_⟩⟩ <;>
    simp [register, login, refresh, authPost, clientResponseOfAuth, hb]

/-- C8 witness: a backend answering 401 with a JSON error body. -/
theorem C8_auth_errors_pass_through_witness :
    ((register none backendLogin401 loginDto0).2 =
        Except.error (AxiosFailure.httpError 401 errBody0) ∧
      clientResponseOfAuth (register none backendLogin401 loginDto0).2 =
        (401, errBody0)) ∧
    ((login none backendLogin401 loginDto0).2 =
        Except.error (AxiosFailure.httpError 401 errBody0) ∧
      clientResponseOfAuth (login none backendLogin401 loginDto0).2 =
        (401, errBody0)) ∧
    ((refresh none backendLogin401 loginDto0).2 =
        Except.error (AxiosFailure.httpError 401 errBody0) ∧
      clientResponseOfAuth (refresh none backendLogin401 loginDto0).2 =
        (401, errBody0)) :=
  C8_auth_errors_pass_through none backendLogin401 loginDto0 401 errBody0
    (by decide) (fun _ => rfl)

/-- C9: on the scenario of the claim, the gateway does return the identical
body and the auth-operation counters at (login, success) and at
(login, failure) each increment by exactly one on the matching outcome, but
the success status is 201, the NestJS default for a POST handler without an
HttpCode decorator, not the 200 the claim and the route's own ApiResponse
decorator state. -/
theorem C9_login_body_metrics_and_status :
    (login none backendLogin200 loginDto0).2 = Except.ok tokenBody0 ∧
    clientResponseOfAuth (login none backendLogin200 loginDto0).2 = (201, tokenBody0) ∧
    loginSuccessStatus = 201 ∧
    loginSuccessStatus ≠ 200 ∧
    (recordLoginOutcome zeroMetrics (login none backendLogin200 loginDto0).2).authOperations
        ("login", "success") = zeroMetrics.authOperations ("login", "success") + 1 ∧
    (recordLoginOutcome zeroMetrics (login none backendLogin200 loginDto0).2).authOperations
        ("login", "failure") = zeroMetrics.authOperations ("login", "failure") ∧
    (recordLoginOutcome zeroMetrics (login none backendLogin401 loginDto0).2).authOperations
        ("login", "failure") = zeroMetrics.authOperations ("login", "failure") + 1 :=
  ⟨rfl, rfl, rfl, by decide, by decide, by decide, by decide⟩

/-- C10: under the precondition that the files array reaching the handler has
at most 3 entries (the cap the route's FilesInterceptor enforces), the
Maximum 3 files allowed branch is unreachable. -/
theorem C10_too_many_branch_unreachable (env : Option String) (user : JsonVal)
    (entries : List (Option MulterFile)) (h : entries.length ≤ 3) :
    uploadVideo env (FilesInput.array entries) user ≠
      Except.error UploadError.tooMany := by
  intro hc
  simp only [uploadVideo] at hc
  by_cases h0 : entries.length = 0
  · rw [if_pos h0] at hc
    simp at hc
  · rw [if_neg h0, if_neg (by omega)] at hc
    simp at hc

/-- C10 witness: a one-entry array. -/
theorem C10_too_many_branch_unreachable_witness :
    uploadVideo none (FilesInput.array [some file1]) userFlat0 ≠
      Except.error UploadError.tooMany :=
  C10_too_many_branch_unreachable none userFlat0 [some file1] (by decide)
